import Mathlib

/-!
Shallow embedding of the adaptive 3D asset selection subsystem of the
frantic-page repository (src/utils/performanceDetector.ts: the
PerformanceDetector prober and the ModelRecommendationEngine, and the
loading-lifecycle handlers of src/components/KampferModel.tsx).

Numbers that are JS `number` values are modelled as rationals (ℚ); the
JS `Math.round` is modelled as floor (x + 1/2), which agrees with
`Math.round` on all finite inputs.  Optional JS fields are modelled as
`Option`; JS truthiness tests on numbers (`x && ...`) are modelled by an
explicit comparison with 0.
-/

namespace FranticPage

/-- GPU tier as in the source union type low | medium | high. -/
inductive GpuTier
  | low
  | medium
  | high
deriving DecidableEq

/-- Model quality as in the source union type low | medium | high | ultra. -/
inductive Quality
  | low
  | medium
  | high
  | ultra
deriving DecidableEq

/-- Connection class as in the source union type slow-2g | 2g | 3g | 4g. -/
inductive EffectiveType
  | slow2g
  | twoG
  | threeG
  | fourG
deriving DecidableEq

/-- Performance impact classification low | medium | high. -/
inductive PerfImpact
  | low
  | medium
  | high
deriving DecidableEq

/-- Screen resolution record. -/
structure Resolution where
  width : ℕ
  height : ℕ
deriving DecidableEq

/-- The fields of the source interface PerformanceMetrics that the embedded
functions consult.  Purely informational fields (vendor/renderer strings,
platform, userAgent, maxTextureSize, and so on) are never read by the
scoring or filtering code and are omitted. -/
structure PerformanceMetrics where
  networkSpeed : ℚ
  effectiveType : EffectiveType
  downlink : ℚ
  rtt : ℚ
  saveData : Bool
  deviceMemory : ℚ
  hardwareConcurrency : ℕ
  gpuTier : GpuTier
  webglVersion : ℕ
  screenResolution : Resolution
  batteryLevel : Option ℚ
  isCharging : Option Bool
deriving DecidableEq

/-- minRequirements of a ModelConfiguration; every field optional. -/
structure MinRequirements where
  networkSpeed : Option ℚ := none
  deviceMemory : Option ℚ := none
  gpuTier : Option GpuTier := none
  webglVersion : Option ℕ := none
  storageSpace : Option ℚ := none
deriving DecidableEq

/-- ModelConfiguration, restricted to the fields read by the engine
(placement metadata, descriptions and tags are passed through opaquely
and omitted here). -/
structure ModelConfiguration where
  id : String
  name : String
  url : String
  fileSize : ℚ
  quality : Quality
  minRequirements : Option MinRequirements := none
deriving DecidableEq

/-- UserPreferences interface; all fields optional in the source. -/
structure UserPreferences where
  prioritizeQuality : Option Bool := none
  prioritizePerformance : Option Bool := none
  dataSaverMode : Option Bool := none
  maxLoadTime : Option ℚ := none
  preferredQuality : Option Quality := none
  excludedModels : Option (List String) := none
  autoLoadBest : Option Bool := none
deriving DecidableEq

/-- RecommendationWeights interface. -/
structure RecommendationWeights where
  networkSpeed : ℚ
  deviceMemory : ℚ
  gpuPerformance : ℚ
  batteryLevel : ℚ
  dataSaver : ℚ
  userPreference : ℚ
deriving DecidableEq

/-- Partial<RecommendationWeights> as passed for customWeights. -/
structure PartialWeights where
  networkSpeed : Option ℚ := none
  deviceMemory : Option ℚ := none
  gpuPerformance : Option ℚ := none
  batteryLevel : Option ℚ := none
  dataSaver : Option ℚ := none
  userPreference : Option ℚ := none
deriving DecidableEq

/-- defaultWeights of ModelRecommendationEngine. -/
def defaultWeights : RecommendationWeights where
  networkSpeed := 1/4
  deviceMemory := 1/5
  gpuPerformance := 1/4
  batteryLevel := 1/10
  dataSaver := 1/10
  userPreference := 1/10

/-- The spread `\x7b ...this.defaultWeights, ...customWeights \x7d`. -/
def mergeWeights (c : PartialWeights) : RecommendationWeights where
  networkSpeed := c.networkSpeed.getD defaultWeights.networkSpeed
  deviceMemory := c.deviceMemory.getD defaultWeights.deviceMemory
  gpuPerformance := c.gpuPerformance.getD defaultWeights.gpuPerformance
  batteryLevel := c.batteryLevel.getD defaultWeights.batteryLevel
  dataSaver := c.dataSaver.getD defaultWeights.dataSaver
  userPreference := c.userPreference.getD defaultWeights.userPreference

/-- JS Math.round on a finite number: floor of x + 1/2. -/
def jsRound (x : ℚ) : ℤ :=
  ⌊x + 1/2⌋

/-- The tierOrder table of filterEligibleModels: low 1, medium 2, high 3. -/
def tierOrder : GpuTier → ℕ
  | .low => 1
  | .medium => 2
  | .high => 3

/-- One numeric minimum-requirement check of filterEligibleModels.
The source guard `requirements.f && metrics.f < requirements.f`
is falsy when the requirement is absent or 0. -/
def numReqFails (req : Option ℚ) (actual : ℚ) : Bool :=
  match req with
  | none => false
  | some r => decide (r ≠ 0) && decide (actual < r)

/-- The webglVersion check of filterEligibleModels (same truthy guard,
integer valued). -/
def natReqFails (req : Option ℕ) (actual : ℕ) : Bool :=
  match req with
  | none => false
  | some r => decide (r ≠ 0) && decide (actual < r)

/-- The gpuTier check of filterEligibleModels: present requirement
(always a truthy nonempty string) fails when deviceTier < modelTier. -/
def tierReqFails (req : Option GpuTier) (actual : GpuTier) : Bool :=
  match req with
  | none => false
  | some r => decide (tierOrder actual < tierOrder r)

/-- The filter predicate of filterEligibleModels: keep a model unless
one of the four declared minimum-requirement checks rejects it; a model
without minRequirements is always kept. -/
def modelMeetsRequirements (metrics : PerformanceMetrics)
    (model : ModelConfiguration) : Bool :=
  match model.minRequirements with
  | none => true
  | some requirements =>
    !(numReqFails requirements.networkSpeed metrics.networkSpeed) &&
    !(numReqFails requirements.deviceMemory metrics.deviceMemory) &&
    !(tierReqFails requirements.gpuTier metrics.gpuTier) &&
    !(natReqFails requirements.webglVersion metrics.webglVersion)

/-- filterEligibleModels. -/
def filterEligibleModels (models : List ModelConfiguration)
    (metrics : PerformanceMetrics) : List ModelConfiguration :=
  models.filter (modelMeetsRequirements metrics)

/-- Spec-side eligibility, written from the specification text: a
descriptor is eligible iff, for every declared minimum-requirement
field, the snapshot value meets it (network throughput at least the
required Mbps, memory at least the required GB, graphics tier at least
the required tier under low < medium < high, rendering-API version at
least the required version); omitted fields impose no constraint. -/
def specEligible (metrics : PerformanceMetrics) (model : ModelConfiguration) : Bool :=
  match model.minRequirements with
  | none => true
  | some req =>
    (match req.networkSpeed with
     | none => true
     | some r => decide (r ≤ metrics.networkSpeed)) &&
    (match req.deviceMemory with
     | none => true
     | some r => decide (r ≤ metrics.deviceMemory)) &&
    (match req.gpuTier with
     | none => true
     | some t => decide (tierOrder t ≤ tierOrder metrics.gpuTier)) &&
    (match req.webglVersion with
     | none => true
     | some v => decide (v ≤ metrics.webglVersion))

/-- calculateNetworkScore: band the estimated download time
fileSizeMB * 8 / networkSpeedMbps, with fileSizeMB = fileSize / (1024*1024). -/
def calculateNetworkScore (model : ModelConfiguration)
    (metrics : PerformanceMetrics) : ℚ :=
  let fileSizeMB := model.fileSize / (1024 * 1024)
  let estimatedTime := fileSizeMB * 8 / metrics.networkSpeed
  if estimatedTime < 2 then 90
  else if estimatedTime < 5 then 75
  else if estimatedTime < 10 then 60
  else if estimatedTime < 20 then 40
  else 20

/-- estimateMemoryUsage: Math.round(fileSizeMB * qualityMultiplier). -/
def estimateMemoryUsage (model : ModelConfiguration) : ℤ :=
  let fileSizeMB := model.fileSize / (1024 * 1024)
  let qualityMultiplier : ℚ :=
    match model.quality with
    | .low => 3/2
    | .medium => 2
    | .high => 3
    | .ultra => 4
  jsRound (fileSizeMB * qualityMultiplier)

/-- calculateMemoryScore: band the ratio of estimated footprint to 70% of
device memory. -/
def calculateMemoryScore (model : ModelConfiguration)
    (metrics : PerformanceMetrics) : ℚ :=
  let modelMemoryMB : ℚ := (estimateMemoryUsage model : ℚ)
  let availableMemoryMB := metrics.deviceMemory * 1024 * (7/10)
  let memoryUsageRatio := modelMemoryMB / availableMemoryMB
  if memoryUsageRatio < 1/10 then 90
  else if memoryUsageRatio < 1/5 then 75
  else if memoryUsageRatio < 2/5 then 60
  else if memoryUsageRatio < 3/5 then 40
  else 20

/-- calculateGPUScore: fixed lookup on (model quality, device gpu tier).
Every key is present, so the `|| 50` default of the source is unreachable. -/
def calculateGPUScore (model : ModelConfiguration)
    (metrics : PerformanceMetrics) : ℚ :=
  match model.quality, metrics.gpuTier with
  | .low, .low => 90
  | .low, .medium => 95
  | .low, .high => 98
  | .medium, .low => 60
  | .medium, .medium => 80
  | .medium, .high => 95
  | .high, .low => 30
  | .high, .medium => 60
  | .high, .high => 85
  | .ultra, .low => 20
  | .ultra, .medium => 40
  | .ultra, .high => 70

/-- calculateBatteryScore.  The guard
`metrics.batteryLevel === undefined || metrics.isCharging` is modelled
with JS truthiness of the optional boolean (undefined is falsy). -/
def calculateBatteryScore (model : ModelConfiguration)
    (metrics : PerformanceMetrics) : ℚ :=
  match metrics.batteryLevel with
  | none => 80
  | some batteryLevel =>
    if metrics.isCharging.getD false then 80
    else
      let qualityImpact : ℚ :=
        match model.quality with
        | .low => 1/10
        | .medium => 3/10
        | .high => 3/5
        | .ultra => 1
      if batteryLevel < 1/5 ∧ qualityImpact > 1/2 then 20
      else if batteryLevel < 1/2 ∧ qualityImpact > 7/10 then 40
      else if batteryLevel < 3/10 then 60
      else 85

/-- calculateDataSaverScore. -/
def calculateDataSaverScore (model : ModelConfiguration)
    (metrics : PerformanceMetrics) (userPreferences : UserPreferences) : ℚ :=
  let fileSizeMB := model.fileSize / (1024 * 1024)
  if userPreferences.dataSaverMode.getD false || metrics.saveData then
    if fileSizeMB < 1 then 90
    else if fileSizeMB < 5 then 70
    else if fileSizeMB < 20 then 40
    else 20
  else
    if fileSizeMB < 10 then 80
    else if fileSizeMB < 50 then 70
    else if fileSizeMB < 100 then 60
    else 50

/-- The quality-priority bonus table of calculatePreferenceScore. -/
def qualityBonus : Quality → ℚ
  | .low => 10
  | .medium => 20
  | .high => 30
  | .ultra => 40

/-- The performance-priority bonus table of calculatePreferenceScore. -/
def performanceBonus : Quality → ℚ
  | .ultra => 10
  | .high => 20
  | .medium => 30
  | .low => 40

/-- calculatePreferenceScore: base 50, +30 on preferred-quality match,
then the quality-priority branch ELSE the performance-priority branch,
score forced to 0 for an excluded id, clamped to the range 0..100. -/
def calculatePreferenceScore (model : ModelConfiguration)
    (userPreferences : UserPreferences) : ℚ :=
  let score : ℚ := 50
  let score :=
    if userPreferences.preferredQuality = some model.quality then score + 30
    else score
  let score :=
    if userPreferences.prioritizeQuality.getD false then
      score + qualityBonus model.quality
    else if userPreferences.prioritizePerformance.getD false then
      score + performanceBonus model.quality
    else score
  let score :=
    if (userPreferences.excludedModels.getD []).contains model.id then 0
    else score
  max 0 (min 100 score)

/-- calculateModelScore: base 50 plus six weighted centred sub-scores,
rounded then clamped to 0..100. -/
def calculateModelScore (model : ModelConfiguration)
    (metrics : PerformanceMetrics) (weights : RecommendationWeights)
    (userPreferences : UserPreferences) : ℚ :=
  let score : ℚ := 50
  let score := score + (calculateNetworkScore model metrics - 50) * weights.networkSpeed
  let score := score + (calculateMemoryScore model metrics - 50) * weights.deviceMemory
  let score := score + (calculateGPUScore model metrics - 50) * weights.gpuPerformance
  let score := score + (calculateBatteryScore model metrics - 50) * weights.batteryLevel
  let score := score + (calculateDataSaverScore model metrics userPreferences - 50) * weights.dataSaver
  let score := score + (calculatePreferenceScore model userPreferences - 50) * weights.userPreference
  max 0 (min 100 (jsRound score : ℚ))

/-- estimateLoadTime: download time plus gpu-scaled processing time,
rounded to one decimal. -/
def estimateLoadTime (model : ModelConfiguration)
    (metrics : PerformanceMetrics) : ℚ :=
  let fileSizeMB := model.fileSize / (1024 * 1024)
  let downloadTime := fileSizeMB * 8 / metrics.networkSpeed
  let baseProcessingTime : ℚ :=
    match model.quality with
    | .low => 1/2
    | .medium => 1
    | .high => 2
    | .ultra => 4
  let gpuMultiplier : ℚ :=
    match metrics.gpuTier with
    | .low => 2
    | .medium => 1
    | .high => 1/2
  let processingTime := baseProcessingTime * gpuMultiplier
  (jsRound ((downloadTime + processingTime) * 10) : ℚ) / 10

/-- assessPerformanceImpact. -/
def assessPerformanceImpact (model : ModelConfiguration)
    (metrics : PerformanceMetrics) : PerfImpact :=
  let memoryUsage : ℚ := (estimateMemoryUsage model : ℚ)
  let availableMemory := metrics.deviceMemory * 1024 * (7/10)
  let memoryRatio := memoryUsage / availableMemory
  if memoryRatio > 1/2 then .high
  else if memoryRatio > 1/5 then .medium
  else .low

/-- JS truthiness of the optional batteryLevel number
(`metrics.batteryLevel && ...`): undefined and 0 are falsy. -/
def batteryTruthy (bl : Option ℚ) : Bool :=
  match bl with
  | none => false
  | some l => decide (l ≠ 0)

/-- generateReasoning: ordered fixed messages from independent rule
checks. -/
def generateReasoning (model : ModelConfiguration)
    (metrics : PerformanceMetrics) (_userPreferences : UserPreferences) :
    List String :=
  let loadTime := estimateLoadTime model metrics
  let memoryUsage := estimateMemoryUsage model
  (if loadTime < 3 then
    ["Fast download expected (" ++ toString loadTime ++ "s)"]
   else if loadTime > 10 then
    ["Longer load time due to large file size (" ++ toString loadTime ++ "s)"]
   else []) ++
  (if model.quality = .ultra ∧ metrics.gpuTier = .high then
    ["Your high-end GPU can handle ultra quality models"]
   else if model.quality = .high ∧ metrics.gpuTier = .medium then
    ["Good balance of quality and performance for your device"]
   else if model.quality = .low ∧ metrics.gpuTier = .low then
    ["Optimized for your device capabilities"]
   else []) ++
  (if memoryUsage < 100 then
    ["Low memory footprint"]
   else if memoryUsage > 500 then
    ["Higher memory usage but provides better visual quality"]
   else []) ++
  (if metrics.effectiveType = .fourG ∧ model.quality ≠ .low then
    ["4G connection supports higher quality models"]
   else if metrics.effectiveType = .twoG ∧ model.quality = .low then
    ["Optimized for slower connections"]
   else []) ++
  (if batteryTruthy metrics.batteryLevel ∧
      metrics.batteryLevel.getD 0 < 3/10 ∧ ¬ metrics.isCharging.getD false then
    ["Selected to conserve battery life"]
   else [])

/-- generateWarnings. -/
def generateWarnings (model : ModelConfiguration)
    (metrics : PerformanceMetrics) : List String :=
  let loadTime := estimateLoadTime model metrics
  let memoryUsage := estimateMemoryUsage model
  (if loadTime > 15 then
    ["Long load time expected (" ++ toString loadTime ++ "s)"]
   else []) ++
  (if memoryUsage > 500 then
    ["High memory usage may affect performance"]
   else []) ++
  (if batteryTruthy metrics.batteryLevel ∧
      metrics.batteryLevel.getD 0 < 1/5 ∧ ¬ metrics.isCharging.getD false then
    ["May drain battery quickly"]
   else []) ++
  (if model.quality = .ultra ∧ metrics.gpuTier ≠ .high then
    ["May experience reduced performance on your device"]
   else [])

/-- generateBenefits. -/
def generateBenefits (model : ModelConfiguration)
    (metrics : PerformanceMetrics) : List String :=
  (match model.quality with
   | .ultra =>
     ["Maximum visual quality and detail", "Best possible lighting and textures"]
   | .high =>
     ["High quality visuals with good performance", "Detailed textures and lighting"]
   | .medium =>
     ["Balanced quality and performance", "Good visual quality with fast loading"]
   | .low =>
     ["Fast loading and smooth performance", "Optimized for all devices"]) ++
  (if estimateLoadTime model metrics < 3 then ["Quick load time"] else []) ++
  (if assessPerformanceImpact model metrics = .low then
    ["Minimal performance impact"]
   else [])

/-- One entry of the scoredModels array of calculateRecommendation. -/
structure ScoredModel where
  model : ModelConfiguration
  score : ℚ
  reasoning : List String
deriving DecidableEq

/-- Descending stable insertion: an element moves past strictly higher
scores only, so equal scores keep their original relative order, which
matches the (stable) JS Array.prototype.sort with comparator
(a, b) => b.score - a.score. -/
def insertDesc (a : ScoredModel) : List ScoredModel → List ScoredModel
  | [] => [a]
  | b :: rest => if b.score > a.score then b :: insertDesc a rest else a :: b :: rest

/-- The stable descending-by-score sort of scoredModels. -/
def sortByScoreDesc : List ScoredModel → List ScoredModel
  | [] => []
  | a :: rest => insertDesc a (sortByScoreDesc rest)

/-- ModelRecommendation. -/
structure ModelRecommendation where
  modelId : String
  confidence : ℚ
  reasoning : List String
  alternative : List ModelConfiguration
  estimatedLoadTime : ℚ
  estimatedMemoryUsage : ℤ
  performanceImpact : PerfImpact
  warnings : List String
  benefits : List String
deriving DecidableEq

/-- The scoredModels array of calculateRecommendation: every eligible
model with its score and reasoning. -/
def scoredModelsOf (metrics : PerformanceMetrics)
    (models : List ModelConfiguration) (userPreferences : UserPreferences)
    (weights : RecommendationWeights) : List ScoredModel :=
  (filterEligibleModels models metrics).map fun model =>
    { model := model
      score := calculateModelScore model metrics weights userPreferences
      reasoning := generateReasoning model metrics userPreferences }

/-- calculateRecommendation.  The source first throws when the eligible
list is empty and otherwise reads scoredModels[0] after the sort; since
the sort of the nonempty scored list is nonempty, matching on the sorted
list is the same control flow.  alternatives = scoredModels.slice(1, 4). -/
def calculateRecommendation (metrics : PerformanceMetrics)
    (models : List ModelConfiguration) (userPreferences : UserPreferences)
    (customWeights : PartialWeights) : Except String ModelRecommendation :=
  let weights := mergeWeights customWeights
  match sortByScoreDesc (scoredModelsOf metrics models userPreferences weights) with
  | [] => Except.error "No models meet the minimum requirements for this device"
  | bestMatch :: rest =>
    Except.ok
      { modelId := bestMatch.model.id
        confidence := min (bestMatch.score / 100) 1
        reasoning := bestMatch.reasoning
        alternative := (rest.take 3).map (fun s => s.model)
        estimatedLoadTime := estimateLoadTime bestMatch.model metrics
        estimatedMemoryUsage := estimateMemoryUsage bestMatch.model
        performanceImpact := assessPerformanceImpact bestMatch.model metrics
        warnings := generateWarnings bestMatch.model metrics
        benefits := generateBenefits bestMatch.model metrics }

/-! ## Capability Prober (PerformanceDetector) -/

/-- calculateOverallScore: weighted blend of four clamped sub-scores
(network 30%, device memory 25%, gpu tier 30%, display 15%), clamped to
0..100 and rounded. -/
def calculateOverallScore (metrics : PerformanceMetrics) : ℤ :=
  let score : ℚ := 0
  let networkScore := min 100 (metrics.networkSpeed / 50 * 100)
  let score := score + networkScore * (3/10)
  let deviceScore := min 100 (metrics.deviceMemory / 16 * 100)
  let score := score + deviceScore * (1/4)
  let gpuScore : ℚ :=
    match metrics.gpuTier with
    | .low => 25
    | .medium => 60
    | .high => 90
  let score := score + gpuScore * (3/10)
  let displayScore :=
    min 100 ((metrics.screenResolution.width * metrics.screenResolution.height : ℚ)
      / (1920 * 1080) * 100)
  let score := score + displayScore * (3/20)
  jsRound (min 100 (max 0 score))

/-- getRecommendedQuality: threshold bands on the overall score. -/
def getRecommendedQuality (score : ℤ) : Quality :=
  if score ≥ 80 then .ultra
  else if score ≥ 60 then .high
  else if score ≥ 40 then .medium
  else .low

/-- getEffectiveTypeFromSpeed. -/
def getEffectiveTypeFromSpeed (speed : ℚ) : EffectiveType :=
  if speed < 1/20 then .slow2g
  else if speed < 1/10 then .twoG
  else if speed < 1 then .threeG
  else .fourG

/-- NetworkTestResult. -/
structure NetworkTestResult where
  speed : ℚ
  latency : ℚ
  jitter : ℚ
deriving DecidableEq

/-- One successful candidate fetch of the speed test: the downloaded
blob size in bytes and the elapsed wall time in milliseconds. -/
structure FetchSuccess where
  sizeBytes : ℚ
  durationMs : ℚ
deriving DecidableEq

/-- performNetworkSpeedTest over the outcomes of the non-data candidate
URLs, in order (the data: URL of the source list is skipped by
`continue` and is not represented).  The first success yields
speed = max(0.1, bits / seconds / 1e6) and the separately measured
latency; if every candidate fails, the documented fallback
(speed 10, latency 50, jitter 5) is returned — the promise never
rejects. -/
def performNetworkSpeedTest (outcomes : List (Option FetchSuccess))
    (measuredLatency : ℚ) : NetworkTestResult :=
  match outcomes with
  | [] => { speed := 10, latency := 50, jitter := 5 }
  | none :: rest => performNetworkSpeedTest rest measuredLatency
  | some f :: _ =>
    let duration := f.durationMs / 1000
    let fileSize := f.sizeBytes * 8
    let speed := fileSize / duration / 1000000
    { speed := max (1/10) speed, latency := measuredLatency, jitter := 0 }

/-- The OS-reported connection hints (navigator.connection), when the
API is present; each field may itself be missing. -/
structure ConnectionHints where
  effectiveType : Option EffectiveType := none
  downlink : Option ℚ := none
  rtt : Option ℚ := none
  saveData : Option Bool := none
deriving DecidableEq

/-- JS `x || d` on an optional number: undefined and 0 give the default. -/
def jsOrQ (x : Option ℚ) (d : ℚ) : ℚ :=
  match x with
  | none => d
  | some v => if v = 0 then d else v

/-- The network sub-probe result record of detectNetworkPerformance. -/
structure NetworkInfo where
  speed : ℚ
  effectiveType : EffectiveType
  downlink : ℚ
  rtt : ℚ
  saveData : Bool
deriving DecidableEq

/-- detectNetworkPerformance: read the OS hints with their `||` defaults,
then run the speed test.  Because performNetworkSpeedTest never throws,
the catch branch of the source (which would return the plain API data)
is unreachable, and the result is always built from the speed-test
value: speed and downlink from the test, connection class derived from
the tested speed, rtt = max(OS rtt, measured latency). -/
def detectNetworkPerformance (conn : Option ConnectionHints)
    (outcomes : List (Option FetchSuccess)) (measuredLatency : ℚ) :
    NetworkInfo :=
  let _effectiveType :=
    match conn with
    | some c => c.effectiveType.getD .fourG
    | none => .fourG
  let _downlink :=
    match conn with
    | some c => jsOrQ c.downlink 10
    | none => 10
  let rtt :=
    match conn with
    | some c => jsOrQ c.rtt 50
    | none => 50
  let saveData :=
    match conn with
    | some c => c.saveData.getD false
    | none => false
  let speedTest := performNetworkSpeedTest outcomes measuredLatency
  { speed := speedTest.speed
    effectiveType := getEffectiveTypeFromSpeed speedTest.speed
    downlink := speedTest.speed
    rtt := max rtt speedTest.latency
    saveData := saveData }

/-- The values reported by the Battery API (battery.level and
battery.charging), when navigator.getBattery resolves. -/
structure BatteryRaw where
  level : ℚ
  charging : Bool
deriving DecidableEq

/-- The battery sub-probe result. -/
structure BatteryInfo where
  level : ℚ
  charging : Bool
deriving DecidableEq

/-- detectBatteryInfo: `battery.level || 1` coerces a reported level of
0 to 1 and `battery.charging || true` coerces any reported charging
value to true; when the API is absent or throws, the default
(level 1, charging true) is returned. -/
def detectBatteryInfo (api : Option BatteryRaw) : BatteryInfo :=
  match api with
  | some battery =>
    { level := if battery.level = 0 then 1 else battery.level
      charging := battery.charging || true }
  | none => { level := 1, charging := true }

/-! ## Asset Loading Controller (KampferModel handlers) -/

/-- LoadingStatus of ModelLoadingIndicator. -/
inductive LoadingStatus
  | pending
  | loading
  | processing
  | ready
  | error
deriving DecidableEq

/-- The progress record reported to onProgress. -/
structure LoadProgress where
  loaded : ℕ
  total : ℕ
  percentage : ℕ
deriving DecidableEq

/-- The KampferModel component state driven by the handlers. -/
structure ControllerState where
  status : LoadingStatus
  progress : Option LoadProgress
  errorMsg : Option String
deriving DecidableEq

/-- The events that drive the handlers: a model switch or onLoadStart
(both set loading), a progress report, the two timers scheduled at 100%
progress (processing → ready and the ready grace period), an error, a
load-complete callback, cancel and retry. -/
inductive LoadEvent
  | modelChange (modelId : String)
  | loadStart
  | progressEvt (p : LoadProgress)
  | processingDone
  | graceExpired
  | errorEvt
  | loadComplete
  | cancel
  | retry
deriving DecidableEq

/-- The transition function realized by the handlers of KampferModel.
None of the handlers inspects the current status before setting the new
one. -/
def step (s : ControllerState) (e : LoadEvent) : ControllerState :=
  match e with
  | .modelChange _ => { s with errorMsg := none, status := .loading }
  | .loadStart => { s with status := .loading }
  | .progressEvt p =>
    let s1 : ControllerState := { s with progress := some p }
    if p.percentage ≥ 100 then { s1 with status := .processing } else s1
  | .processingDone => { s with status := .ready }
  | .graceExpired => { s with status := .pending }
  | .errorEvt => { s with errorMsg := some "Failed to load 3D model", status := .error }
  | .loadComplete => { s with status := .ready }
  | .cancel => { status := .pending, progress := none, errorMsg := none }
  | .retry => { s with errorMsg := none, status := .loading }

/-- The transition list of the claim, as a predicate on
(status before, event, status after): start from pending to loading,
100% progress from loading to processing, completion from processing to
ready, grace expiry from ready to pending, error from loading or
processing, retry from error to loading, cancel from error to pending;
nothing else. -/
def claimAllowed : LoadingStatus → LoadEvent → LoadingStatus → Bool
  | .pending, .modelChange _, .loading => true
  | .pending, .loadStart, .loading => true
  | .loading, .progressEvt p, .processing => decide (p.percentage = 100)
  | .processing, .processingDone, .ready => true
  | .processing, .loadComplete, .ready => true
  | .ready, .graceExpired, .pending => true
  | .loading, .errorEvt, .error => true
  | .processing, .errorEvt, .error => true
  | .error, .retry, .loading => true
  | .error, .cancel, .pending => true
  | _, _, _ => false

/-! ## Spec-side definitions, written from the specification text -/

/-- The download-time band of the specification: below 2 s scores 90,
below 5 s scores 75, below 10 s scores 60, below 20 s scores 40, and 20
otherwise. -/
def netBand (t : ℚ) : ℚ :=
  if t < 2 then 90
  else if t < 5 then 75
  else if t < 10 then 60
  else if t < 20 then 40
  else 20

/-- The download time the claim states: (fileSizeBytes * 8 bits / 1e6)
/ throughputMbps seconds. -/
def specDownloadTime (model : ModelConfiguration)
    (metrics : PerformanceMetrics) : ℚ :=
  model.fileSize * 8 / 1000000 / metrics.networkSpeed

/-- The download time the source computes:
(fileSize / (1024*1024)) * 8 / throughputMbps. -/
def downloadTime (model : ModelConfiguration)
    (metrics : PerformanceMetrics) : ℚ :=
  model.fileSize / (1024 * 1024) * 8 / metrics.networkSpeed

/-- The processing-time component of estimateLoadTime:
base time by model quality, scaled by the device gpu tier. -/
def processingTime (model : ModelConfiguration)
    (metrics : PerformanceMetrics) : ℚ :=
  let baseProcessingTime : ℚ :=
    match model.quality with
    | .low => 1/2
    | .medium => 1
    | .high => 2
    | .ultra => 4
  let gpuMultiplier : ℚ :=
    match metrics.gpuTier with
    | .low => 2
    | .medium => 1
    | .high => 1/2
  baseProcessingTime * gpuMultiplier

/-- The user-preference sub-score the claim states for a preference set
with both priority flags set: base 50, +30 on preferred-quality match,
then BOTH the quality-priority bonus and the performance-priority bonus
additively before the exclusion override and the clamp. -/
def specPreferenceScoreBothFlags (model : ModelConfiguration)
    (userPreferences : UserPreferences) : ℚ :=
  let score : ℚ := 50
  let score :=
    if userPreferences.preferredQuality = some model.quality then score + 30
    else score
  let score := score + qualityBonus model.quality + performanceBonus model.quality
  let score :=
    if (userPreferences.excludedModels.getD []).contains model.id then 0
    else score
  max 0 (min 100 score)

/-- The quality-tier bands the claim states for the overall score:
ultra at 80 and above, high on 60..79, medium on 40..59, low below 40. -/
def qualityBandSpec (score : ℤ) : Quality :=
  if 80 ≤ score then .ultra
  else if 60 ≤ score ∧ score < 80 then .high
  else if 40 ≤ score ∧ score < 60 then .medium
  else .low

/-- Rank of a quality tier, for stating monotonicity. -/
def qualityRank : Quality → ℕ
  | .low => 0
  | .medium => 1
  | .high => 2
  | .ultra => 3

/-! ## Concrete inputs used by witnesses and counterexamples -/

/-- The snapshot of the worked example of the claim on eligibility:
networkSpeed 1 Mbps, deviceMemory 2 GB, gpuTier low (remaining fields
are not consulted by the filter). -/
def exampleSnapshot : PerformanceMetrics where
  networkSpeed := 1
  effectiveType := .fourG
  downlink := 1
  rtt := 50
  saveData := false
  deviceMemory := 2
  hardwareConcurrency := 4
  gpuTier := .low
  webglVersion := 1
  screenResolution := { width := 1920, height := 1080 }
  batteryLevel := none
  isCharging := none

/-- Descriptor A of the worked example: requires network at least 10,
memory at least 8 and a high gpu tier (file size and quality as in the
kampfer-hd entry of the repository catalog). -/
def exampleModelA : ModelConfiguration where
  id := "kampfer-hd"
  name := "Kampfer (HD)"
  url := "/models/kampfer-1-optimized.glb"
  fileSize := 678 * 1024 * 1024 / 10
  quality := .high
  minRequirements :=
    some { networkSpeed := some 10, deviceMemory := some 8, gpuTier := some .high }

/-- Descriptor B of the worked example: no minRequirements. -/
def exampleModelB : ModelConfiguration where
  id := "zeon-basic"
  name := "Zeon"
  url := "/models/zeon.glb"
  fileSize := 857 * 1024
  quality := .medium

/-- A well-provisioned snapshot (fast network, 8 GB, medium gpu, no
battery information). -/
def c3Metrics : PerformanceMetrics where
  networkSpeed := 100
  effectiveType := .fourG
  downlink := 100
  rtt := 50
  saveData := false
  deviceMemory := 8
  hardwareConcurrency := 8
  gpuTier := .medium
  webglVersion := 2
  screenResolution := { width := 1920, height := 1080 }
  batteryLevel := none
  isCharging := none

/-- A small medium-quality descriptor (1 MiB) with no requirements. -/
def c3Small : ModelConfiguration where
  id := "small-medium"
  name := "Small"
  url := "/models/small.glb"
  fileSize := 1048576
  quality := .medium

/-- A large ultra-quality descriptor (200 MiB) with no requirements. -/
def c3Alt : ModelConfiguration where
  id := "alt-ultra"
  name := "Alt"
  url := "/models/alt.glb"
  fileSize := 200 * 1048576
  quality := .ultra

/-- Preferences excluding the small descriptor. -/
def c3Prefs : UserPreferences :=
  { excludedModels := some ["small-medium"] }

/-- Snapshot with throughput 4.1 Mbps, on which the two download-time
formulas fall into different bands for a 1 MiB file. -/
def c4Metrics : PerformanceMetrics :=
  { c3Metrics with networkSpeed := 41/10 }

/-- A low-quality descriptor used for the preference-bonus inputs. -/
def c6Model : ModelConfiguration where
  id := "small-low"
  name := "Small low"
  url := "/models/small-low.glb"
  fileSize := 1048576
  quality := .low

/-- Preferences with both priority flags set. -/
def c6Prefs : UserPreferences :=
  { prioritizeQuality := some true, prioritizePerformance := some true }

/-- OS-reported connection hints: class 3g, downlink 2 Mbps, rtt 100 ms. -/
def c9Conn : ConnectionHints where
  effectiveType := some .threeG
  downlink := some 2
  rtt := some 100
  saveData := some false

/-- A controller state sitting in ready. -/
def readyState : ControllerState where
  status := .ready
  progress := none
  errorMsg := none

/-- A controller state sitting in pending. -/
def pendingState : ControllerState where
  status := .pending
  progress := none
  errorMsg := none

/-- An all-default ModelRecommendation used only as a getD fallback. -/
def emptyRecommendation : ModelRecommendation where
  modelId := ""
  confidence := 0
  reasoning := []
  alternative := []
  estimatedLoadTime := 0
  estimatedMemoryUsage := 0
  performanceImpact := .low
  warnings := []
  benefits := []

/-- The recommendation computed on the worked example (descriptor A is
filtered out, so B wins). -/
def wRecW : ModelRecommendation :=
  (calculateRecommendation exampleSnapshot [exampleModelA, exampleModelB] {} {}).toOption.getD
    emptyRecommendation

/-- A snapshot carrying the battery fields a prober run would produce
from a half-full, discharging battery (charging coerced to true). -/
def wBatteryMetrics : PerformanceMetrics :=
  { c3Metrics with batteryLevel := some (1/2), isCharging := some true }

/-! ## Theorems -/

/-- The truthy-guarded numeric requirement check accepts exactly when
the snapshot value meets a declared requirement, for nonnegative
snapshot values (a requirement of 0 is skipped by the truthy guard and
is also always met by a nonnegative value). -/
theorem not_numReqFails_eq (req : Option ℚ) (actual : ℚ) (h : 0 ≤ actual) :
    (!numReqFails req actual) =
      (match req with
       | none => true
       | some r => decide (r ≤ actual)) := by
  cases req with
  | none => rfl
  | some r =>
    by_cases hr : r = 0
    · subst hr
      simp [numReqFails, h]
    · simp [numReqFails, hr, ← decide_not, not_lt]

/-- Same for the integer webglVersion requirement (no hypothesis needed:
naturals are nonnegative). -/
theorem not_natReqFails_eq (req : Option ℕ) (actual : ℕ) :
    (!natReqFails req actual) =
      (match req with
       | none => true
       | some r => decide (r ≤ actual)) := by
  cases req with
  | none => rfl
  | some r =>
    by_cases hr : r = 0
    · subst hr
      simp [natReqFails, Nat.zero_le]
    · simp [natReqFails, hr, ← decide_not, not_lt]

/-- Same for the gpu tier requirement. -/
theorem not_tierReqFails_eq (req : Option GpuTier) (actual : GpuTier) :
    (!tierReqFails req actual) =
      (match req with
       | none => true
       | some t => decide (tierOrder t ≤ tierOrder actual)) := by
  cases req with
  | none => rfl
  | some t => simp [tierReqFails, ← decide_not, not_lt]

/-- The source filter predicate coincides with the spec-side eligibility
predicate on snapshots with nonnegative network speed and memory. -/
theorem modelMeetsRequirements_eq_specEligible (metrics : PerformanceMetrics)
    (model : ModelConfiguration)
    (h1 : 0 ≤ metrics.networkSpeed) (h2 : 0 ≤ metrics.deviceMemory) :
    modelMeetsRequirements metrics model = specEligible metrics model := by
  cases hm : model.minRequirements with
  | none => simp [modelMeetsRequirements, specEligible, hm]
  | some req =>
    simp only [modelMeetsRequirements, specEligible, hm]
    rw [not_numReqFails_eq req.networkSpeed metrics.networkSpeed h1,
      not_numReqFails_eq req.deviceMemory metrics.deviceMemory h2,
      not_tierReqFails_eq, not_natReqFails_eq]

/-- On the worked example the filter drops descriptor A (network 1 < 10)
and keeps descriptor B. -/
theorem exampleFilter_eq :
    filterEligibleModels [exampleModelA, exampleModelB] exampleSnapshot =
      [exampleModelB] := by
  norm_num [filterEligibleModels, modelMeetsRequirements, exampleModelA,
    exampleModelB, exampleSnapshot, numReqFails, natReqFails, tierReqFails,
    tierOrder, List.filter]

/-- Claim C1: for every snapshot with nonnegative network throughput and
memory, the eligibility filter keeps exactly the descriptors whose every
declared minimum-requirement field is met by the snapshot (omitted
fields and absent minRequirements impose no constraint); and on the
worked example — snapshot (1 Mbps, 2 GB, low gpu) with descriptor A
requiring (10, 8, high) and descriptor B without requirements — the
filter returns exactly B. -/
theorem C1_eligibility_filter (metrics : PerformanceMetrics)
    (models : List ModelConfiguration)
    (h1 : 0 ≤ metrics.networkSpeed) (h2 : 0 ≤ metrics.deviceMemory) :
    filterEligibleModels models metrics = models.filter (specEligible metrics) ∧
    filterEligibleModels [exampleModelA, exampleModelB] exampleSnapshot =
      [exampleModelB] := by
  constructor
  · unfold filterEligibleModels
    induction models with
    | nil => rfl
    | cons m rest ih =>
      rw [List.filter_cons, List.filter_cons,
        modelMeetsRequirements_eq_specEligible metrics m h1 h2, ih]
  · exact exampleFilter_eq

/-- Witness for C1 at the worked example. -/
theorem C1_eligibility_filter_witness :
    filterEligibleModels [exampleModelA, exampleModelB] exampleSnapshot =
      [exampleModelA, exampleModelB].filter (specEligible exampleSnapshot) ∧
    filterEligibleModels [exampleModelA, exampleModelB] exampleSnapshot =
      [exampleModelB] :=
  C1_eligibility_filter exampleSnapshot [exampleModelA, exampleModelB]
    (by with_unfolding_all decide) (by with_unfolding_all decide)

/-- Math.round of a value in the range 0..100 stays in 0..100. -/
theorem jsRound_bounds (x : ℚ) (h0 : 0 ≤ x) (h1 : x ≤ 100) :
    0 ≤ jsRound x ∧ jsRound x ≤ 100 := by
  unfold jsRound
  constructor
  · exact Int.le_floor.mpr (by push_cast; linarith)
  · have h : (⌊x + 1/2⌋ : ℤ) < 101 := by
      rw [Int.floor_lt]
      push_cast
      linarith
    omega

/-- Claim C5: the overall score is an integer in 0..100 and the
recommended quality tier is exactly the threshold-band function of that
score (ultra at 80 and above, high on 60..79, medium on 40..59, low
below 40), hence monotonically non-decreasing in the score. -/
theorem C5_overall_score_quality (m : PerformanceMetrics) :
    0 ≤ calculateOverallScore m ∧ calculateOverallScore m ≤ 100 ∧
    getRecommendedQuality (calculateOverallScore m) =
      qualityBandSpec (calculateOverallScore m) ∧
    ∀ s t : ℤ, s ≤ t →
      qualityRank (getRecommendedQuality s) ≤
        qualityRank (getRecommendedQuality t) := by
  have hb : ∀ x : ℚ, 0 ≤ jsRound (min 100 (max 0 x)) ∧
      jsRound (min 100 (max 0 x)) ≤ 100 := fun x =>
    jsRound_bounds _ (le_min (by norm_num) (le_max_left 0 x)) (min_le_left _ _)
  have hband : ∀ s : ℤ, getRecommendedQuality s = qualityBandSpec s := by
    intro s
    unfold getRecommendedQuality qualityBandSpec
    split_ifs <;> first | rfl | (exfalso; omega)
  have hmono : ∀ s t : ℤ, s ≤ t →
      qualityRank (getRecommendedQuality s) ≤
        qualityRank (getRecommendedQuality t) := by
    intro s t hst
    unfold getRecommendedQuality
    split_ifs <;> simp [qualityRank] <;> omega
  refine ⟨?_, ?_, hband _, hmono⟩
  · simp only [calculateOverallScore]
    exact (hb _).1
  · simp only [calculateOverallScore]
    exact (hb _).2

/-- Witness for C5 at a concrete snapshot and concrete scores. -/
theorem C5_overall_score_quality_witness :
    0 ≤ calculateOverallScore exampleSnapshot ∧
    calculateOverallScore exampleSnapshot ≤ 100 ∧
    getRecommendedQuality (calculateOverallScore exampleSnapshot) =
      qualityBandSpec (calculateOverallScore exampleSnapshot) ∧
    qualityRank (getRecommendedQuality 45) ≤
      qualityRank (getRecommendedQuality 83) := by
  obtain ⟨a, b, c, d⟩ := C5_overall_score_quality exampleSnapshot
  exact ⟨a, b, c, d 45 83 (by decide)⟩

/-- Counterexample to claim C4: for a 1 MiB descriptor on a 4.1 Mbps
snapshot the source band (file size divided by 1024*1024) gives 90,
while the claimed formula (bits divided by 1e6) lands at about 2.046 s
and would give 75. -/
theorem C4_network_score_counterexample :
    calculateNetworkScore c3Small c4Metrics = 90 ∧
    netBand (specDownloadTime c3Small c4Metrics) = 75 ∧
    calculateNetworkScore c3Small c4Metrics ≠
      netBand (specDownloadTime c3Small c4Metrics) := by
  refine ⟨?_, ?_, ?_⟩ <;> with_unfolding_all decide

/-- Claim C4 amended: the estimated download time is
(fileSizeBytes / (1024*1024)) * 8 / throughputMbps seconds (file size
converted to MiB, not bits divided by 1e6); the network sub-score is the
stated band function of that time, and the same time is the download
component of the estimated load time. -/
theorem C4_network_score_amended (model : ModelConfiguration)
    (metrics : PerformanceMetrics)
    (_hf : 0 < model.fileSize) (_hn : 0 < metrics.networkSpeed) :
    calculateNetworkScore model metrics = netBand (downloadTime model metrics) ∧
    estimateLoadTime model metrics =
      (jsRound ((downloadTime model metrics + processingTime model metrics) * 10) : ℚ)
        / 10 :=
  ⟨rfl, rfl⟩

/-- Witness for the amended C4 at a concrete descriptor and snapshot. -/
theorem C4_network_score_amended_witness :
    calculateNetworkScore exampleModelB exampleSnapshot =
      netBand (downloadTime exampleModelB exampleSnapshot) ∧
    estimateLoadTime exampleModelB exampleSnapshot =
      (jsRound ((downloadTime exampleModelB exampleSnapshot +
        processingTime exampleModelB exampleSnapshot) * 10) : ℚ) / 10 :=
  C4_network_score_amended exampleModelB exampleSnapshot
    (by with_unfolding_all decide) (by with_unfolding_all decide)

/-- Counterexample to claim C6: for a low-quality descriptor with both
priority flags set the source gives 50 + 10 = 60 (quality branch only),
not the claimed additive 50 + 10 + 40 = 100. -/
theorem C6_both_flags_counterexample :
    calculatePreferenceScore c6Model c6Prefs = 60 ∧
    specPreferenceScoreBothFlags c6Model c6Prefs = 100 ∧
    calculatePreferenceScore c6Model c6Prefs ≠
      specPreferenceScoreBothFlags c6Model c6Prefs := by
  refine ⟨?_, ?_, ?_⟩ <;> with_unfolding_all decide

/-- Claim C6 amended: when both priority flags are set only the
quality-priority bonus applies (the quality branch shadows the
performance branch), so the score equals the score with the
performance flag cleared. -/
theorem C6_both_flags_amended (model : ModelConfiguration)
    (prefs : UserPreferences)
    (h : prefs.prioritizeQuality = some true)
    (_h2 : prefs.prioritizePerformance = some true) :
    calculatePreferenceScore model prefs =
      calculatePreferenceScore model { prefs with prioritizePerformance := none } := by
  simp [calculatePreferenceScore, h]

/-- Witness for the amended C6 at the concrete inputs. -/
theorem C6_both_flags_amended_witness :
    calculatePreferenceScore c6Model c6Prefs =
      calculatePreferenceScore c6Model { c6Prefs with prioritizePerformance := none } :=
  C6_both_flags_amended c6Model c6Prefs rfl rfl

/-- Counterexample to claim C7: the handlers do not guard on the current
status, so an error event in ready (or pending) also moves to error —
transitions outside the claimed list occur. -/
theorem C7_transitions_counterexample :
    (step readyState LoadEvent.errorEvt).status = LoadingStatus.error ∧
    claimAllowed LoadingStatus.ready LoadEvent.errorEvt LoadingStatus.error = false ∧
    (step pendingState LoadEvent.errorEvt).status = LoadingStatus.error ∧
    claimAllowed LoadingStatus.pending LoadEvent.errorEvt LoadingStatus.error = false := by
  decide

/-- Claim C7 amended: every listed transition is realized, but the
handlers set the status from the event alone, regardless of the current
status: start and retry set loading, a progress report of at least 100%
sets processing (below 100% the status is unchanged), completion sets
ready, grace expiry sets pending, an error event sets error and records
the message, cancel resets to pending clearing progress and error, and
retry clears the error. -/
theorem C7_transitions_amended (s : ControllerState) (mid : String)
    (p : LoadProgress) (hp : 100 ≤ p.percentage) :
    (step s (.modelChange mid)).status = .loading ∧
    (step s .loadStart).status = .loading ∧
    (step s (.progressEvt p)).status = .processing ∧
    (∀ q : LoadProgress, q.percentage < 100 →
      (step s (.progressEvt q)).status = s.status) ∧
    (step s .processingDone).status = .ready ∧
    (step s .loadComplete).status = .ready ∧
    (step s .graceExpired).status = .pending ∧
    (step s .errorEvt).status = .error ∧
    (step s .errorEvt).errorMsg = some "Failed to load 3D model" ∧
    step s .cancel = { status := .pending, progress := none, errorMsg := none } ∧
    (step s .retry).status = .loading ∧
    (step s .retry).errorMsg = none := by
  refine ⟨rfl, rfl, ?_, ?_, rfl, rfl, rfl, rfl, rfl, rfl, rfl, rfl⟩
  · simp [step, hp]
  · intro q hq
    simp [step, not_le.mpr hq]

/-- Witness for the amended C7 at a concrete state and progress report. -/
theorem C7_transitions_amended_witness :
    (step pendingState
      (LoadEvent.progressEvt { loaded := 857, total := 857, percentage := 100 })).status =
      LoadingStatus.processing :=
  (C7_transitions_amended pendingState "kampfer-hd"
    { loaded := 857, total := 857, percentage := 100 } (by decide)).2.2.1

/-- Claim C10: the battery sub-probe always reports charging = true
(`battery.charging || true`), coercing a reported false to true, and
`battery.level || 1` coerces a reported 0 to 1; consequently on a
snapshot whose charging flag comes from the sub-probe the battery
sub-score is 80 for every descriptor. -/
theorem C10_battery_always_80 (api : Option BatteryRaw)
    (model : ModelConfiguration) (m : PerformanceMetrics)
    (hm : m.isCharging = some (detectBatteryInfo api).charging) :
    (detectBatteryInfo api).charging = true ∧
    calculateBatteryScore model m = 80 ∧
    (detectBatteryInfo (some { level := 0, charging := false })).level = 1 := by
  have hc : (detectBatteryInfo api).charging = true := by
    cases api with
    | none => rfl
    | some battery => simp [detectBatteryInfo]
  rw [hc] at hm
  refine ⟨hc, ?_, by with_unfolding_all decide⟩
  cases hbl : m.batteryLevel with
  | none => simp [calculateBatteryScore, hbl]
  | some l => simp [calculateBatteryScore, hbl, hm]

/-- Witness for C10 at a discharging half-full battery report. -/
theorem C10_battery_always_80_witness :
    (detectBatteryInfo (some { level := 1/2, charging := false })).charging = true ∧
    calculateBatteryScore c3Small wBatteryMetrics = 80 ∧
    (detectBatteryInfo (some { level := 0, charging := false })).level = 1 :=
  C10_battery_always_80 (some { level := 1/2, charging := false }) c3Small
    wBatteryMetrics (by with_unfolding_all decide)

/-- Membership through the descending insertion. -/
theorem mem_insertDesc {x a : ScoredModel} {l : List ScoredModel} :
    x ∈ insertDesc a l ↔ x = a ∨ x ∈ l := by
  induction l with
  | nil => simp [insertDesc]
  | cons b rest ih =>
    simp only [insertDesc]
    split
    · simp only [List.mem_cons, ih]
      tauto
    · simp [List.mem_cons]

/-- The descending insertion never produces the empty list. -/
theorem insertDesc_ne_nil (a : ScoredModel) (l : List ScoredModel) :
    insertDesc a l ≠ [] := by
  cases l with
  | nil => simp [insertDesc]
  | cons b rest =>
    simp only [insertDesc]
    split <;> simp

/-- The sort is a permutation at the level of membership. -/
theorem mem_sortByScoreDesc {x : ScoredModel} {l : List ScoredModel} :
    x ∈ sortByScoreDesc l ↔ x ∈ l := by
  induction l with
  | nil => simp [sortByScoreDesc]
  | cons a rest ih =>
    simp only [sortByScoreDesc, mem_insertDesc, List.mem_cons, ih]

/-- The sort of a list is empty exactly when the list is. -/
theorem sortByScoreDesc_eq_nil_iff {l : List ScoredModel} :
    sortByScoreDesc l = [] ↔ l = [] := by
  cases l with
  | nil => simp [sortByScoreDesc]
  | cons a rest => simp [sortByScoreDesc, insertDesc_ne_nil]

/-- calculateRecommendation fails exactly when the eligibility filter
leaves no descriptor. -/
theorem calculateRecommendation_error_iff (metrics : PerformanceMetrics)
    (models : List ModelConfiguration) (prefs : UserPreferences)
    (cw : PartialWeights) :
    (∃ e, calculateRecommendation metrics models prefs cw = Except.error e) ↔
      filterEligibleModels models metrics = [] := by
  simp only [calculateRecommendation]
  cases hs : sortByScoreDesc (scoredModelsOf metrics models prefs (mergeWeights cw)) with
  | nil =>
    have hfil : filterEligibleModels models metrics = [] := by
      have hsc := sortByScoreDesc_eq_nil_iff.mp hs
      simpa [scoredModelsOf] using hsc
    exact ⟨fun _ => hfil, fun _ => ⟨_, rfl⟩⟩
  | cons b rest =>
    constructor
    · rintro ⟨e, he⟩
      exact absurd he (by simp)
    · intro hnil
      have hsc : scoredModelsOf metrics models prefs (mergeWeights cw) = [] := by
        unfold scoredModelsOf
        rw [hnil]
        rfl
      rw [hsc] at hs
      simp [sortByScoreDesc] at hs

/-- A successful calculateRecommendation names an eligible descriptor. -/
theorem calculateRecommendation_ok_mem (metrics : PerformanceMetrics)
    (models : List ModelConfiguration) (prefs : UserPreferences)
    (cw : PartialWeights) (r : ModelRecommendation)
    (h : calculateRecommendation metrics models prefs cw = Except.ok r) :
    r.modelId ∈ (filterEligibleModels models metrics).map ModelConfiguration.id := by
  simp only [calculateRecommendation] at h
  cases hs : sortByScoreDesc (scoredModelsOf metrics models prefs (mergeWeights cw)) with
  | nil =>
    rw [hs] at h
    exact absurd h (by simp)
  | cons b rest =>
    rw [hs] at h
    have hb : b ∈ scoredModelsOf metrics models prefs (mergeWeights cw) :=
      mem_sortByScoreDesc.mp (by rw [hs]; exact List.mem_cons_self _ _)
    obtain ⟨model, hmem, hfb⟩ := List.mem_map.mp (by simpa [scoredModelsOf] using hb)
    injection h with h2
    subst h2
    subst hfb
    exact List.mem_map_of_mem _ hmem

/-- Claim C2: the scoring engine fails with the no-eligible-assets
condition exactly when the eligibility filter removes every descriptor,
and any returned recommendation names the id of an eligible
descriptor. -/
theorem C2_recommendation_totality (metrics : PerformanceMetrics)
    (models : List ModelConfiguration) (prefs : UserPreferences)
    (cw : PartialWeights) :
    ((∃ e, calculateRecommendation metrics models prefs cw = Except.error e) ↔
      filterEligibleModels models metrics = []) ∧
    ∀ r, calculateRecommendation metrics models prefs cw = Except.ok r →
      r.modelId ∈ (filterEligibleModels models metrics).map ModelConfiguration.id :=
  ⟨calculateRecommendation_error_iff metrics models prefs cw,
   fun r h => calculateRecommendation_ok_mem metrics models prefs cw r h⟩

/-- A non-error Except equals ok of its unwrapped value. -/
theorem except_ok_getD {α : Type} (e : Except String α) (d : α)
    (h : ¬ ∃ s, e = Except.error s) :
    e = Except.ok (e.toOption.getD d) := by
  cases e with
  | error s => exact absurd ⟨s, rfl⟩ h
  | ok a => rfl

/-- On the worked example the engine succeeds and returns wRecW. -/
theorem wRecW_ok :
    calculateRecommendation exampleSnapshot [exampleModelA, exampleModelB] {} {} =
      Except.ok wRecW := by
  apply except_ok_getD
  rw [calculateRecommendation_error_iff, exampleFilter_eq]
  simp

/-- Witness for C2 on the worked example. -/
theorem C2_recommendation_totality_witness :
    ((∃ e, calculateRecommendation exampleSnapshot [exampleModelA, exampleModelB] {} {} =
        Except.error e) ↔
      filterEligibleModels [exampleModelA, exampleModelB] exampleSnapshot = []) ∧
    wRecW.modelId ∈
      (filterEligibleModels [exampleModelA, exampleModelB] exampleSnapshot).map
        ModelConfiguration.id := by
  obtain ⟨h1, h2⟩ :=
    C2_recommendation_totality exampleSnapshot [exampleModelA, exampleModelB] {} {}
  exact ⟨h1, h2 wRecW wRecW_ok⟩

/-- Claim C8: scoring is deterministic — two results of the same call
agree on the winner, the confidence and the ordered alternatives (the
embedding is a pure function of exactly these inputs; the source method
reads no other state). -/
theorem C8_deterministic (metrics : PerformanceMetrics)
    (models : List ModelConfiguration) (prefs : UserPreferences)
    (cw : PartialWeights) (r1 r2 : ModelRecommendation)
    (h1 : calculateRecommendation metrics models prefs cw = Except.ok r1)
    (h2 : calculateRecommendation metrics models prefs cw = Except.ok r2) :
    r1.modelId = r2.modelId ∧ r1.confidence = r2.confidence ∧
    r1.alternative = r2.alternative := by
  rw [h1] at h2
  injection h2 with h
  rw [h]
  exact ⟨rfl, rfl, rfl⟩

/-- Witness for C8 on the worked example. -/
theorem C8_deterministic_witness :
    wRecW.modelId = wRecW.modelId ∧ wRecW.confidence = wRecW.confidence ∧
    wRecW.alternative = wRecW.alternative :=
  C8_deterministic exampleSnapshot [exampleModelA, exampleModelB] {} {}
    wRecW wRecW wRecW_ok wRecW_ok

/-- Both c3 descriptors pass the filter (no minRequirements). -/
theorem c3Filter_eq :
    filterEligibleModels [c3Small, c3Alt] c3Metrics = [c3Small, c3Alt] := by
  norm_num [filterEligibleModels, modelMeetsRequirements, c3Small, c3Alt,
    List.filter]

set_option maxRecDepth 1000 in
/-- The excluded small descriptor still scores 77 on the c3 snapshot. -/
theorem c3SmallScore_eq :
    calculateModelScore c3Small c3Metrics (mergeWeights {}) c3Prefs = 77 := by
  with_unfolding_all decide

set_option maxRecDepth 1000 in
/-- The non-excluded large alternative scores only 53. -/
theorem c3AltScore_eq :
    calculateModelScore c3Alt c3Metrics (mergeWeights {}) c3Prefs = 53 := by
  with_unfolding_all decide

/-- Claim C3 evidence: with default weights on a fast 8 GB medium-gpu
snapshot, the excluded 1 MiB descriptor wins the recommendation over the
eligible, non-excluded 200 MiB alternative, even though its
user-preference sub-score is forced to 0 — exclusion only subtracts one
weighted factor and does not remove the descriptor from selection. -/
theorem C3_excluded_model_wins :
    (calculateRecommendation c3Metrics [c3Small, c3Alt] c3Prefs {}).map
      ModelRecommendation.modelId = Except.ok "small-medium" ∧
    (c3Prefs.excludedModels.getD []).contains c3Small.id = true ∧
    (c3Prefs.excludedModels.getD []).contains c3Alt.id = false ∧
    c3Alt ∈ filterEligibleModels [c3Small, c3Alt] c3Metrics ∧
    calculatePreferenceScore c3Small c3Prefs = 0 := by
  refine ⟨?_, by decide, by decide, ?_, ?_⟩
  · simp only [calculateRecommendation, scoredModelsOf, c3Filter_eq, List.map,
      c3SmallScore_eq, c3AltScore_eq, sortByScoreDesc, insertDesc]
    norm_num [c3Small, Except.map]
  · rw [c3Filter_eq]
    simp
  · with_unfolding_all decide

/-- If every candidate fetch fails, the speed test returns the
documented fallback values (speed 10 Mbps, latency 50 ms, jitter 5). -/
theorem performNetworkSpeedTest_all_fail (outcomes : List (Option FetchSuccess))
    (lat : ℚ) (hall : ∀ o ∈ outcomes, o = none) :
    performNetworkSpeedTest outcomes lat =
      { speed := 10, latency := 50, jitter := 5 } := by
  induction outcomes with
  | nil => rfl
  | cons o rest ih =>
    cases o with
    | none => exact ih fun x hx => hall x (List.mem_cons_of_mem _ hx)
    | some f => simpa using hall (some f) (List.mem_cons_self _ _)

/-- Counterexample to claim C9: with the OS connection API present
(class 3g, downlink 2 Mbps) and every candidate fetch failing, the
sub-probe reports speed and downlink 10 and class 4g — the OS hints for
throughput and class are not reported. -/
theorem C9_fallback_counterexample :
    (detectNetworkPerformance (some c9Conn) [none, none] 20).downlink = 10 ∧
    c9Conn.downlink = some 2 ∧
    (detectNetworkPerformance (some c9Conn) [none, none] 20).effectiveType =
      EffectiveType.fourG ∧
    c9Conn.effectiveType = some EffectiveType.threeG ∧
    (detectNetworkPerformance (some c9Conn) [none, none] 20).speed = 10 := by
  refine ⟨?_, rfl, ?_, rfl, ?_⟩ <;> with_unfolding_all decide

/-- Claim C9 amended: when every candidate fetch fails the sub-probe
reports the fallback of the speed test itself — speed 10 Mbps, class 4g
(derived from that speed), downlink 10 — regardless of any OS hints; the
reported rtt is the maximum of the OS rtt (default 50) and the fallback
latency 50, and saveData comes from the OS hints; with the OS API absent
the result is exactly the documented defaults. -/
theorem C9_fallback_amended (conn : Option ConnectionHints)
    (outcomes : List (Option FetchSuccess)) (lat : ℚ)
    (hall : ∀ o ∈ outcomes, o = none) :
    (detectNetworkPerformance conn outcomes lat).speed = 10 ∧
    (detectNetworkPerformance conn outcomes lat).effectiveType =
      EffectiveType.fourG ∧
    (detectNetworkPerformance conn outcomes lat).downlink = 10 ∧
    (detectNetworkPerformance conn outcomes lat).rtt =
      max (match conn with
           | some c => jsOrQ c.rtt 50
           | none => 50) 50 ∧
    (detectNetworkPerformance conn outcomes lat).saveData =
      (match conn with
       | some c => c.saveData.getD false
       | none => false) ∧
    (conn = none → detectNetworkPerformance conn outcomes lat =
      { speed := 10, effectiveType := .fourG, downlink := 10, rtt := 50,
        saveData := false }) := by
  have hst := performNetworkSpeedTest_all_fail outcomes lat hall
  refine ⟨?_, ?_, ?_, ?_, ?_, ?_⟩
  · simp [detectNetworkPerformance, hst]
  · norm_num [detectNetworkPerformance, hst, getEffectiveTypeFromSpeed]
  · simp [detectNetworkPerformance, hst]
  · simp [detectNetworkPerformance, hst]
  · simp [detectNetworkPerformance, hst]
  · rintro rfl
    norm_num [detectNetworkPerformance, hst, getEffectiveTypeFromSpeed]

/-- Witness for the amended C9 with hints present and two failed
candidates. -/
theorem C9_fallback_amended_witness :
    (detectNetworkPerformance (some c9Conn) [none, none] 20).speed = 10 ∧
    (detectNetworkPerformance (some c9Conn) [none, none] 20).effectiveType =
      EffectiveType.fourG ∧
    (detectNetworkPerformance (some c9Conn) [none, none] 20).downlink = 10 ∧
    (detectNetworkPerformance (some c9Conn) [none, none] 20).rtt =
      max (jsOrQ c9Conn.rtt 50) 50 ∧
    (detectNetworkPerformance (some c9Conn) [none, none] 20).saveData =
      c9Conn.saveData.getD false ∧
    (some c9Conn = none → detectNetworkPerformance (some c9Conn) [none, none] 20 =
      { speed := 10, effectiveType := .fourG, downlink := 10, rtt := 50,
        saveData := false }) :=
  C9_fallback_amended (some c9Conn) [none, none] 20 (by decide)

end FranticPage
